import Mathlib

/-!
Verification of the OSI model reference tool (src/version1/osi_refrence.py).

The program is a read-only reference browser: a hardcoded table mapping layer
numbers 1-7 to layer records, and three query operations (`display_layer`,
`list_layers`, `search_protocol`) that format the table to standard output.

Shallow embedding conventions:
* Each Python `print(...)` call is modelled as one string appended to the
  output list; leading `\n` characters inside f-strings are kept verbatim,
  so the returned `List String` is exactly the sequence of print arguments.
* Python `dict` literals become association lists in the source's insertion
  order; `sorted(model.keys())` is modelled by an insertion sort.
* Python `str.upper()` is `strUpper` (character-wise `Char.toUpper`; all
  data is ASCII), `a in b` on strings is the executable substring test
  `strContains b a`, `ljust` and `split('.')[0]` are modelled explicitly.
* Apostrophes inside output strings are written with the escape \x27.
-/

namespace OSIRef

inductive ProtocolType where
  | ROUTING
  | TRANSPORT
  | ENCRYPTION
  | DATA_FORMAT
  | APPLICATION
deriving DecidableEq, BEq

structure OSILayer where
  number : Int
  name : String
  function : String
  protocols : List String
  protocol_types : List ProtocolType
  standards : List String
  pdu_name : String
  key_technologies : String
deriving DecidableEq, Inhabited

/-- Python `needle.isPrefixOf`-style scan: `strContainsAux hay needle` is true
iff `needle` occurs contiguously in `hay` (models Python `needle in hay`). -/
def strContainsAux : List Char → List Char → Bool
  | [], needle => needle.isEmpty
  | hay@(_ :: t), needle => needle.isPrefixOf hay || strContainsAux t needle

/-- Python substring test: `strContains hay needle` models `needle in hay`. -/
def strContains (hay needle : String) : Bool :=
  strContainsAux hay.toList needle.toList

/-- Python `s.upper()`: uppercase character by character (the data is all
ASCII, where `Char.toUpper` and Python agree). -/
def strUpper (s : String) : String :=
  String.mk (s.toList.map Char.toUpper)

/-- Python `s.ljust(w)`: pad on the right with spaces up to width `w`. -/
def ljust (s : String) (w : Nat) : String :=
  s ++ String.mk (List.replicate (w - s.length) ' ')

/-- Python `s.split('.')[0]`: everything before the first dot (the whole
string when there is no dot; `split` always yields at least one piece). -/
def splitDotHead (s : String) : String :=
  String.mk (s.toList.takeWhile (fun c => c ≠ '.'))

/-- Insert into an ascending list (helper for modelling Python `sorted`). -/
def sortInsert (x : Int) : List Int → List Int
  | [] => [x]
  | y :: ys => if x ≤ y then x :: y :: ys else y :: sortInsert x ys

/-- Insertion sort; models Python `sorted(...)` on the (distinct) dict keys. -/
def sortAsc : List Int → List Int
  | [] => []
  | x :: xs => sortInsert x (sortAsc xs)

/-- `get_osi_model` from the source: the complete OSI reference table, as an
association list in the Python dict's insertion order (keys 7 down to 1). -/
def get_osi_model : List (Int × OSILayer) :=
  [ (7, { number := 7
        , name := "Application"
        , function := "Interface between network and application software"
        , protocols := ["HTTP", "SMTP", "FTP", "DNS", "DHCP", "SNMP", "SSH"]
        , protocol_types := [ProtocolType.APPLICATION]
        , standards := ["RFC 2616 (HTTP)", "RFC 5321 (SMTP)", "RFC 959 (FTP)"]
        , pdu_name := "Message"
        , key_technologies := "Web browsers, email clients, APIs" })
  , (6, { number := 6
        , name := "Presentation"
        , function := "Data translation, encryption, compression"
        , protocols := ["SSL/TLS", "JPEG", "MPEG", "ASCII", "Unicode"]
        , protocol_types := [ProtocolType.ENCRYPTION, ProtocolType.DATA_FORMAT]
        , standards := ["RFC 8446 (TLS 1.3)", "ISO/IEC 10918 (JPEG)", "X.216"]
        , pdu_name := "Payload"
        , key_technologies := "Encryption algorithms, compression formats" })
  , (5, { number := 5
        , name := "Session"
        , function := "Manages connections between applications"
        , protocols := ["NetBIOS", "RPC", "PPTP", "SIP"]
        , protocol_types := [ProtocolType.APPLICATION]
        , standards := ["RFC 1001/1002 (NetBIOS)", "RFC 5531 (RPC)", "RFC 2637 (PPTP)"]
        , pdu_name := "Session Data"
        , key_technologies := "Session establishment, maintenance, termination" })
  , (4, { number := 4
        , name := "Transport"
        , function := "End-to-end message delivery, error correction"
        , protocols := ["TCP", "UDP", "SCTP", "DCCP"]
        , protocol_types := [ProtocolType.TRANSPORT]
        , standards := ["RFC 793 (TCP)", "RFC 768 (UDP)", "ISO/IEC 8073"]
        , pdu_name := "Segment (TCP) / Datagram (UDP)"
        , key_technologies := "Port numbers, flow control, congestion avoidance" })
  , (3, { number := 3
        , name := "Network"
        , function := "Logical addressing and routing"
        , protocols := ["IP", "ICMP", "OSPF", "BGP", "ARP", "IPsec"]
        , protocol_types := [ProtocolType.ROUTING]
        , standards := ["RFC 791 (IPv4)", "RFC 8200 (IPv6)", "ISO/IEC 8208"]
        , pdu_name := "Packet"
        , key_technologies := "Routers, IP addressing, routing tables" })
  , (2, { number := 2
        , name := "Data Link"
        , function := "Physical addressing and media access"
        , protocols := ["Ethernet", "PPP", "MAC", "VLAN", "LLC"]
        , protocol_types := [ProtocolType.DATA_FORMAT]
        , standards := ["IEEE 802.3 (Ethernet)", "RFC 1661 (PPP)", "IEEE 802.1Q (VLAN)"]
        , pdu_name := "Frame"
        , key_technologies := "Switches, MAC addresses, error detection" })
  , (1, { number := 1
        , name := "Physical"
        , function := "Transmits raw bit stream over physical medium"
        , protocols := ["100BASE-TX", "1000BASE-T", "DSL", "SONET", "Wi-Fi"]
        , protocol_types := []
        , standards := ["IEEE 802.3", "ITU-T G.992.x (DSL)", "IEEE 802.11 (Wi-Fi)"]
        , pdu_name := "Bit"
        , key_technologies := "Cables, connectors, NICs, hubs, repeaters" }) ]

/-- Python dict lookup `model[k]` / membership test `k in model` on the
association list (keys are distinct, so first match is the value). -/
def lookupLayer (m : List (Int × OSILayer)) (k : Int) : Option OSILayer :=
  (m.find? (fun p => p.1 == k)).map Prod.snd

/-- `display_layer` from the source. Output: the list of `print` arguments.
The Key Protocols loop is `for proto, std in zip(layer.protocols,
layer.standards)`, i.e. positional pairing truncated at the shorter list. -/
def display_layer (layer_num : Int) (detailed : Bool) : List String :=
  match lookupLayer get_osi_model layer_num with
  | none => ["Invalid layer number: " ++ toString layer_num ++ ". Must be 1-7."]
  | some layer =>
    ["\n=== Layer " ++ toString layer.number ++ ": " ++ layer.name ++ " ===",
     "\nPrimary Function: " ++ layer.function,
     "\nProtocol Data Unit (PDU): " ++ layer.pdu_name,
     "\nKey Protocols:"]
    ++ (layer.protocols.zip layer.standards).map
         (fun pr => "  • " ++ ljust pr.1 8 ++ " (" ++ pr.2 ++ ")")
    ++ (if detailed then
          ["\nKey Technologies:",
           "  " ++ layer.key_technologies,
           "\nTechnical Standards:"]
          ++ layer.standards.map (fun std => "  • " ++ std)
        else [])

/-- The `continue` test of `list_layers`: Python
`if filter_type and filter_type not in layer.protocol_types` (a `None`
filter is falsy, an enum member is truthy). -/
def skipLayer (filter_type : Option ProtocolType) (layer : OSILayer) : Bool :=
  match filter_type with
  | none => false
  | some t => !(layer.protocol_types.contains t)

/-- Body of the `list_layers` loop over the sorted key list. -/
def listBody (filter_type : Option ProtocolType) : List Int → List String
  | [] => []
  | num :: rest =>
    (match lookupLayer get_osi_model num with
     | none => []
     | some layer =>
       if skipLayer filter_type layer then []
       else
         ["\nLayer " ++ toString layer.number ++ ": " ++ layer.name,
          "  Function: " ++ splitDotHead layer.function ++ "...",
          "  Key Protocols: " ++ String.intercalate ", " (layer.protocols.take 3) ++ "..."])
    ++ listBody filter_type rest

/-- `list_layers` from the source. Note the source appends "..." to the
function summary and to the first-three-protocols join unconditionally. -/
def list_layers (filter_type : Option ProtocolType) : List String :=
  ["\nOSI Model Layers:", "----------------"]
  ++ listBody filter_type (sortAsc (get_osi_model.map Prod.fst))

/-- The protocol match test of `search_protocol`:
Python `protocol.upper() in p.upper()` for protocol name `p` and query. -/
def protocolMatches (query p : String) : Bool :=
  strContains (strUpper p) (strUpper query)

/-- The `matches` list built for one layer inside `search_protocol`. -/
def matchingProtocols (query : String) (layer : OSILayer) : List String :=
  layer.protocols.filter (fun p => protocolMatches query p)

/-- The lines `search_protocol` prints for one layer: nothing when no
protocol matches, else header, comma-joined matches, and `standards[0]`. -/
def searchLayerLines (query : String) (layer : OSILayer) : List String :=
  match matchingProtocols query layer with
  | [] => []
  | m :: rest =>
    ["\nLayer " ++ toString layer.number ++ ": " ++ layer.name,
     "  Protocols: " ++ String.intercalate ", " (m :: rest),
     "  Standards: " ++ layer.standards.headD ""]

/-- Body of the `search_protocol` loop over the sorted key list. -/
def searchBody (query : String) : List Int → List String
  | [] => []
  | num :: rest =>
    (match lookupLayer get_osi_model num with
     | none => []
     | some layer => searchLayerLines query layer)
    ++ searchBody query rest

/-- The `found` flag of `search_protocol`: true iff some layer of the
iteration produced at least one match. -/
def searchFound (query : String) : List Int → Bool
  | [] => false
  | num :: rest =>
    (match lookupLayer get_osi_model num with
     | none => false
     | some layer => !(matchingProtocols query layer).isEmpty)
    || searchFound query rest

/-- `search_protocol` from the source. The not-found message prints the
query as given; the header prints it uppercased. -/
def search_protocol (query : String) : List String :=
  let keys := sortAsc (get_osi_model.map Prod.fst)
  ["\nSearch Results for \x27" ++ strUpper query ++ "\x27:",
   "--------------------------------"]
  ++ searchBody query keys
  ++ (if searchFound query keys then []
      else ["No protocols found matching \x27" ++ query ++ "\x27"])

/-! ## Definitions modelled from the spec's words (for refinement claims) -/

/-- Modelled from the spec: "first standard entry whose text contains the
protocol name as a substring, case-sensitive on the stored strings; falls
back to \"no specific standard listed\" if none matches" (claim C1). -/
def specBestStandard (p : String) (stds : List String) : String :=
  match stds.find? (fun s => strContains s p) with
  | some s => s
  | none => "no specific standard listed"

/-- Modelled from the spec: `display_layer` as claim C1 describes it — the
same header lines as the code, but one Key Protocols line for EVERY
protocol, paired via `specBestStandard`. -/
def specDisplay_layer (layer_num : Int) (detailed : Bool) : List String :=
  match lookupLayer get_osi_model layer_num with
  | none => ["Invalid layer number: " ++ toString layer_num ++ ". Must be 1-7."]
  | some layer =>
    ["\n=== Layer " ++ toString layer.number ++ ": " ++ layer.name ++ " ===",
     "\nPrimary Function: " ++ layer.function,
     "\nProtocol Data Unit (PDU): " ++ layer.pdu_name,
     "\nKey Protocols:"]
    ++ layer.protocols.map
         (fun p => "  • " ++ ljust p 8 ++ " (" ++ specBestStandard p layer.standards ++ ")")
    ++ (if detailed then
          ["\nKey Technologies:",
           "  " ++ layer.key_technologies,
           "\nTechnical Standards:"]
          ++ layer.standards.map (fun std => "  • " ++ std)
        else [])

/-- Modelled from the spec: the function-summary truncation claim C2
describes — "first 60 characters plus ellipsis if longer", and a string of
at most 60 characters "printed unmodified with no ellipsis". -/
def specTrunc (s : String) : String :=
  if 60 < s.length then String.mk (s.toList.take 60) ++ "..." else s

/-- The layer-entry header lines of a `list_layers` or `search_protocol`
output (each retained layer contributes exactly one line starting with
"\nLayer "). -/
def layerHeaderLines (out : List String) : List String :=
  out.filter (fun l => "\nLayer ".toList.isPrefixOf l.toList)

/-- All possible values of the `list_layers` filter argument. -/
def allFilters : List (Option ProtocolType) :=
  [none, some ProtocolType.ROUTING, some ProtocolType.TRANSPORT,
   some ProtocolType.ENCRYPTION, some ProtocolType.DATA_FORMAT,
   some ProtocolType.APPLICATION]

/-! ## Helper lemmas -/

theorem searchBody_mem_of {q x : String} {layer : OSILayer} :
    ∀ ks : List Int, (∃ num ∈ ks, lookupLayer get_osi_model num = some layer) →
      x ∈ searchLayerLines q layer → x ∈ searchBody q ks := by
  intro ks
  induction ks with
  | nil => rintro ⟨num, hmem, _⟩ _; cases hmem
  | cons a rest ih =>
    rintro ⟨num, hmem, hl⟩ hx
    rcases List.mem_cons.mp hmem with rfl | hrest
    · simp only [searchBody, hl]
      exact List.mem_append_left _ hx
    · simp only [searchBody]
      exact List.mem_append_right _ (ih ⟨num, hrest, hl⟩ hx)

theorem table_key_of_mem :
    ∀ p ∈ get_osi_model, p.1 ∈ ([1, 2, 3, 4, 5, 6, 7] : List Int) := by decide

theorem mem_search_protocol_of {query x : String} {n : Int} {layer : OSILayer}
    (hl : lookupLayer get_osi_model n = some layer)
    (hx : x ∈ searchLayerLines query layer) : x ∈ search_protocol query := by
  have hfind : ∃ e, (get_osi_model.find? (fun p => p.1 == n)) = some e ∧ e.snd = layer := by
    unfold lookupLayer at hl
    exact Option.map_eq_some'.mp hl
  rcases hfind with ⟨e, hfe, _⟩
  have hmem : e ∈ get_osi_model := List.mem_of_find?_eq_some hfe
  have hpred := List.find?_some hfe
  have hn : e.1 = n := by simpa using hpred
  have hkeys : sortAsc (get_osi_model.map Prod.fst) = [1, 2, 3, 4, 5, 6, 7] := by decide
  have hnmem : n ∈ ([1, 2, 3, 4, 5, 6, 7] : List Int) :=
    hn ▸ table_key_of_mem e hmem
  have hb : x ∈ searchBody query [1, 2, 3, 4, 5, 6, 7] :=
    searchBody_mem_of _ ⟨n, hnmem, hl⟩ hx
  simp only [search_protocol, hkeys, List.mem_append]
  tauto

/-! ## Claim theorems -/

/-- Claim C7: `list_layers` with no filter prints exactly 7 layer entries
(23 output lines: 2 header lines and 3 lines per layer), one per layer, with
entry header lines in ascending order of layer number 1 through 7. -/
theorem list_all_seven_ascending :
    layerHeaderLines (list_layers none) =
      ["\nLayer 1: Physical", "\nLayer 2: Data Link", "\nLayer 3: Network",
       "\nLayer 4: Transport", "\nLayer 5: Session", "\nLayer 6: Presentation",
       "\nLayer 7: Application"] ∧
    (list_layers none).length = 23 := by
  constructor
  · decide
  · decide

/-- Claim C8: `list_layers` with the Transport filter prints exactly the
layers whose category-tag list contains `TRANSPORT` — a layer's entry header
appears in the output iff its tags contain `TRANSPORT` — and with the fixed
table data that is layer 4 only. -/
theorem list_transport_filter :
    layerHeaderLines (list_layers (some ProtocolType.TRANSPORT)) =
      ["\nLayer 4: Transport"] ∧
    (get_osi_model.all (fun p =>
      (list_layers (some ProtocolType.TRANSPORT)).contains
          ("\nLayer " ++ toString p.2.number ++ ": " ++ p.2.name)
        == p.2.protocol_types.contains ProtocolType.TRANSPORT)) = true := by
  constructor
  · decide
  · decide

/-- Claim C9: the table built by `get_osi_model` has exactly seven entries,
keyed 1 through 7 with no gaps or duplicates, each entry's `number` field
equals its key, and every layer has a non-empty name and non-empty function.
(The protocol, category and standard fields are total `List` values by
construction, so "never null" holds by typing.) -/
theorem table_invariants :
    get_osi_model.length = 7 ∧
    sortAsc (get_osi_model.map Prod.fst) = [1, 2, 3, 4, 5, 6, 7] ∧
    (get_osi_model.map Prod.fst).Nodup ∧
    (get_osi_model.all (fun p =>
      (p.2.number == p.1) && !(p.2.name == "") && !(p.2.function == ""))) = true := by
  refine ⟨by decide, by decide, by decide, by decide⟩

/-- Claim C10: for every layer, the Key Protocols section printed by
`display_layer` has exactly `min (#protocols) (#standards)` entries (output
length is the 4 header lines plus that minimum); protocols beyond the
standards list are silently dropped — e.g. "DNS" (layer 7's 4th protocol)
appears nowhere in the non-detailed view — and every layer of the fixed data
has exactly 3 standards, so at most 3 protocols are ever shown. -/
theorem display_key_protocols_zip_truncation :
    (get_osi_model.all (fun p =>
      (display_layer p.2.number false).length
        == 4 + min p.2.protocols.length p.2.standards.length)) = true ∧
    ((display_layer 7 false).any (fun l => strContains l "DNS")) = false ∧
    (get_osi_model.all (fun p => p.2.standards.length == 3)) = true := by
  refine ⟨by decide, by decide, by decide⟩

/-- Claim C3: for every filter value and every layer retained under that
filter, the printed Key Protocols line holds the layer's first three
protocol names, followed by an ellipsis marker iff the layer has more than
three protocols (with the fixed data every layer has at least four, so the
code's unconditional "..." agrees with that conditional). -/
theorem list_protocols_first_three_ellipsis :
    (allFilters.all (fun ft => get_osi_model.all (fun p =>
      skipLayer ft p.2 ||
      (list_layers ft).contains
        ("  Key Protocols: " ++ String.intercalate ", " (p.2.protocols.take 3)
          ++ (if 3 < p.2.protocols.length then "..." else ""))))) = true := by
  decide

/-- Claim C5: protocol search matching is case-insensitive — a protocol
matches iff the uppercased query is a substring of the uppercased protocol
name — and `search_protocol "tcp"` and `search_protocol "TCP"` produce
identical output. -/
theorem search_case_insensitive :
    (∀ query p : String, protocolMatches query p = strContains (strUpper p) (strUpper query)) ∧
    search_protocol "tcp" = search_protocol "TCP" :=
  ⟨fun _ _ => rfl, by decide⟩

/-- Claim C6: for every layer number outside 1-7 and either detail mode,
`display_layer` yields exactly the invalid-layer message and nothing else —
no name, PDU or protocol lines (and, being a total function, it returns
rather than raising). -/
theorem display_invalid_layer (n : Int) (h : n < 1 ∨ 7 < n) (detailed : Bool) :
    display_layer n detailed =
      ["Invalid layer number: " ++ toString n ++ ". Must be 1-7."] := by
  have hnone : lookupLayer get_osi_model n = none := by
    have h1 : ((1 : Int) == n) = false := by simp; omega
    have h2 : ((2 : Int) == n) = false := by simp; omega
    have h3 : ((3 : Int) == n) = false := by simp; omega
    have h4 : ((4 : Int) == n) = false := by simp; omega
    have h5 : ((5 : Int) == n) = false := by simp; omega
    have h6 : ((6 : Int) == n) = false := by simp; omega
    have h7 : ((7 : Int) == n) = false := by simp; omega
    simp [lookupLayer, get_osi_model, List.find?, h1, h2, h3, h4, h5, h6, h7]
  simp [display_layer, hnone]

/-- Witness for C6: `display_layer 0` yields only the invalid-layer
message. -/
theorem display_invalid_layer_witness :
    display_layer 0 true =
      ["Invalid layer number: " ++ toString (0 : Int) ++ ". Must be 1-7."] :=
  display_invalid_layer 0 (Or.inl (by decide)) true

/-- Claim C4 counterexample: searching "TCP" matches layer 4 (its header is
printed) and layer 4's standards list contains "ISO/IEC 8073", yet no line
of the output contains that entry — the code prints `standards[0]` only,
not the layer's full standards list. -/
theorem search_full_standards_cex :
    ((search_protocol "TCP").contains "\nLayer 4: Transport") = true ∧
    ((lookupLayer get_osi_model 4).map OSILayer.standards)
      = some ["RFC 793 (TCP)", "RFC 768 (UDP)", "ISO/IEC 8073"] ∧
    ((search_protocol "TCP").any (fun l => strContains l "ISO/IEC 8073")) = false := by
  refine ⟨by decide, by decide, by decide⟩

/-- Claim C4 (amended): for every query, each layer with at least one
matching protocol contributes its header, the comma-joined matching
protocol names, and only the FIRST entry of its standards list to the
`search_protocol` output. -/
theorem search_prints_first_standard (query : String) (n : Int) (layer : OSILayer)
    (hl : lookupLayer get_osi_model n = some layer)
    (hm : matchingProtocols query layer ≠ []) :
    ("\nLayer " ++ toString layer.number ++ ": " ++ layer.name) ∈ search_protocol query ∧
    ("  Protocols: " ++ String.intercalate ", " (matchingProtocols query layer))
      ∈ search_protocol query ∧
    ("  Standards: " ++ layer.standards.headD "") ∈ search_protocol query := by
  cases hmm : matchingProtocols query layer with
  | nil => exact absurd hmm hm
  | cons m rest =>
    have hlines : searchLayerLines query layer =
        ["\nLayer " ++ toString layer.number ++ ": " ++ layer.name,
         "  Protocols: " ++ String.intercalate ", " (m :: rest),
         "  Standards: " ++ layer.standards.headD ""] := by
      simp [searchLayerLines, hmm]
    refine ⟨?_, ?_, ?_⟩
    · exact mem_search_protocol_of hl (by rw [hlines]; simp)
    · exact mem_search_protocol_of hl (by rw [hlines]; simp)
    · exact mem_search_protocol_of hl (by rw [hlines]; simp)

/-- Witness for the amended C4, at query "TCP" and layer 4. -/
theorem search_prints_first_standard_witness :
    ("\nLayer " ++ toString ((lookupLayer get_osi_model 4).getD default).number ++ ": "
        ++ ((lookupLayer get_osi_model 4).getD default).name) ∈ search_protocol "TCP" ∧
    ("  Protocols: " ++ String.intercalate ", "
        (matchingProtocols "TCP" ((lookupLayer get_osi_model 4).getD default)))
      ∈ search_protocol "TCP" ∧
    ("  Standards: " ++ ((lookupLayer get_osi_model 4).getD default).standards.headD "")
      ∈ search_protocol "TCP" :=
  search_prints_first_standard "TCP" 4 ((lookupLayer get_osi_model 4).getD default)
    (by decide) (by decide)

/-- Claim C1 counterexample: at layer 7 the claimed best-match-with-fallback
pairing (spec modelled as `specDisplay_layer`) would print seven Key
Protocols lines, four of them carrying the fallback text; `display_layer`
prints only three positionally paired lines, so the outputs differ. -/
theorem display_not_best_match_cex :
    display_layer 7 false ≠ specDisplay_layer 7 false := by decide

/-- Claim C1 (amended): for every valid layer, `display_layer` prints one
Key Protocols line per position `i < min (#protocols) (#standards)`,
pairing the i-th protocol with the i-th standard entry (positional zip
pairing, not substring matching); protocols beyond the standards list get
no line, and the fallback text "no specific standard listed" is never
printed, even in the detailed view. -/
theorem display_pairs_by_position :
    (get_osi_model.all (fun p =>
      ((display_layer p.2.number false).length
        == 4 + min p.2.protocols.length p.2.standards.length)
      && ((List.range (min p.2.protocols.length p.2.standards.length)).all (fun i =>
            (display_layer p.2.number false).getD (4 + i) ""
              == "  • " ++ ljust (p.2.protocols.getD i "") 8 ++ " ("
                  ++ p.2.standards.getD i "" ++ ")"))
      && !((display_layer p.2.number true).any
            (fun l => strContains l "no specific standard listed")))) = true := by
  decide

/-- Claim C2 counterexample: layer 3's function string ("Logical addressing
and routing", 30 characters) is not longer than 60 characters, so under the
claimed rule (`specTrunc`) it would be printed unmodified with no ellipsis;
the actual `list_layers` output contains it only with "..." appended. -/
theorem list_function_truncation_cex :
    ((lookupLayer get_osi_model 3).map OSILayer.function)
      = some "Logical addressing and routing" ∧
    specTrunc "Logical addressing and routing" = "Logical addressing and routing" ∧
    ((list_layers none).contains "  Function: Logical addressing and routing") = false ∧
    ((list_layers none).contains "  Function: Logical addressing and routing...") = true := by
  refine ⟨by decide, by decide, by decide, by decide⟩

/-- Claim C2 (amended): the function summary `list_layers` prints is the
text before the first "." of the function string with "..." appended
unconditionally (sentence split, not a 60-character cutoff); in particular
a string of at most 60 characters is still printed with the ellipsis, so
the line demanded by the claimed rule (`specTrunc`, which leaves such
strings unmodified) never appears in the output. -/
theorem list_function_truncation_sentence_split :
    (get_osi_model.all (fun p =>
      ((list_layers none).contains
         ("  Function: " ++ splitDotHead p.2.function ++ "..."))
      && !((list_layers none).contains
         ("  Function: " ++ specTrunc p.2.function)))) = true := by
  decide

end OSIRef
